import Mathlib

/-!
Verification of the drone trajectory planner: a shallow embedding of the
camera-geometry functions (`src/camera_utils.py`) and the grid plan
computation (`src/plan_computation.py`) over exact rational arithmetic,
together with proofs of the specified properties.

Python `float` values are modelled as `ℚ` (exact real arithmetic); Python
`int` fields as `ℤ`; `math.ceil` on a float quotient as `Int.ceil` on the
exact quotient; Python lists as `List`.
-/

namespace DronePlan

/-- Embedding of the `Camera` dataclass (src/data_model.py). -/
structure Camera where
  fx : ℚ
  fy : ℚ
  cx : ℚ
  cy : ℚ
  sensor_size_x_mm : ℚ
  sensor_size_y_mm : ℚ
  image_size_x : ℤ
  image_size_y : ℤ
  deriving DecidableEq, Repr

/-- Embedding of the `DatasetSpec` dataclass (src/data_model.py). -/
structure DatasetSpec where
  overlap : ℚ
  sidelap : ℚ
  height : ℚ
  scan_dimension_x : ℤ
  scan_dimension_y : ℤ
  exposure_time_ms : ℤ
  deriving DecidableEq, Repr

/-- Embedding of the `Waypoint` dataclass (src/data_model.py). -/
structure Waypoint where
  x : ℚ
  y : ℚ
  z : ℚ
  speed : ℚ
  deriving DecidableEq, Repr

/-- The stated invariants on `Camera` (spec section 3): all of
fx, fy, sensor sizes and image sizes are strictly positive. -/
abbrev ValidCamera (c : Camera) : Prop :=
  0 < c.fx ∧ 0 < c.fy ∧ 0 < c.sensor_size_x_mm ∧ 0 < c.sensor_size_y_mm ∧
    0 < c.image_size_x ∧ 0 < c.image_size_y

/-- The stated invariants on `DatasetSpec` (spec section 3): overlap and
sidelap in [0,1), height > 0, scan dimensions ≥ 0, exposure time > 0. -/
abbrev ValidSpec (s : DatasetSpec) : Prop :=
  0 ≤ s.overlap ∧ s.overlap < 1 ∧ 0 ≤ s.sidelap ∧ s.sidelap < 1 ∧
    0 < s.height ∧ 0 ≤ s.scan_dimension_x ∧ 0 ≤ s.scan_dimension_y ∧
    0 < s.exposure_time_ms

/-- Embedding of `compute_focal_length_in_mm` (src/camera_utils.py):
`[fx * sensor_size_x_mm / image_size_x, fy * sensor_size_y_mm / image_size_y]`. -/
def compute_focal_length_in_mm (camera : Camera) : ℚ × ℚ :=
  let pixel_to_mm_x := camera.sensor_size_x_mm / (camera.image_size_x : ℚ)
  let pixel_to_mm_y := camera.sensor_size_y_mm / (camera.image_size_y : ℚ)
  (camera.fx * pixel_to_mm_x, camera.fy * pixel_to_mm_y)

/-- Embedding of `project_world_point_to_image` (src/camera_utils.py).
The Python body applies the pinhole formula unconditionally: it contains no
check on `Z` and no `raise`.  The `Except` result type records that a Python
function could signal an error; this body never does — it always returns
`Except.ok`.  (With `np.float64` inputs a zero `Z` silently yields a
non-finite coordinate; in this exact-arithmetic embedding the division-by-
zero convention `X / 0 = 0` stands in for that non-finite value.  The
salient modelled fact is that a value is returned, never an error.) -/
def project_world_point_to_image (camera : Camera) (point : ℚ × ℚ × ℚ) :
    Except String (ℚ × ℚ) :=
  let fx := camera.fx
  let fy := camera.fy
  let cx := camera.cx
  let cy := camera.cy
  let X := point.1
  let Y := point.2.1
  let Z := point.2.2
  let x := fx * (X / Z)
  let y := fy * (Y / Z)
  let u := x + cx
  let v := y + cy
  Except.ok (u, v)

/-- Embedding of `compute_image_footprint_on_surface` (src/camera_utils.py):
footprints from similar triangles, converting meters to millimeters and back. -/
def compute_image_footprint_on_surface (camera : Camera) (distance_from_surface : ℚ) :
    ℚ × ℚ :=
  let distance_mm := distance_from_surface * 1000
  let focal_length_x := (compute_focal_length_in_mm camera).1
  let focal_length_y := (compute_focal_length_in_mm camera).2
  let footprint_x := camera.sensor_size_x_mm * distance_mm / focal_length_x
  let footprint_y := camera.sensor_size_y_mm * distance_mm / focal_length_y
  (footprint_x / 1000, footprint_y / 1000)

/-- Embedding of `compute_ground_sampling_distance` (src/camera_utils.py):
`distance_from_surface / min(fx, fy)`. -/
def compute_ground_sampling_distance (camera : Camera) (distance_from_surface : ℚ) : ℚ :=
  distance_from_surface / min camera.fx camera.fy

/-- Embedding of `compute_distance_between_images` (src/plan_computation.py):
`[footprint_x * (1 - overlap), footprint_y * (1 - sidelap)]` at `height`. -/
def compute_distance_between_images (camera : Camera) (dataset_spec : DatasetSpec) :
    ℚ × ℚ :=
  let footprint_x := (compute_image_footprint_on_surface camera dataset_spec.height).1
  let footprint_y := (compute_image_footprint_on_surface camera dataset_spec.height).2
  (footprint_x * (1 - dataset_spec.overlap), footprint_y * (1 - dataset_spec.sidelap))

/-- Embedding of `compute_speed_during_photo_capture` (src/plan_computation.py).
The Python parameter `allowed_movement_px` defaults to `1`; the embedding
takes it explicitly and call sites that rely on the default pass `1`. -/
def compute_speed_during_photo_capture (camera : Camera) (dataset_spec : DatasetSpec)
    (allowed_movement_px : ℚ) : ℚ :=
  let gsd := compute_ground_sampling_distance camera dataset_spec.height
  let max_distance_meters := gsd * allowed_movement_px
  let exposure_time_s := (dataset_spec.exposure_time_ms : ℚ) / 1000
  max_distance_meters / exposure_time_s

/-! The local variables of `generate_photo_plan_on_grid`
(src/plan_computation.py) are given as top-level definitions so the proofs
can speak about them; `generate_photo_plan_on_grid` below is their
composition, exactly following the Python control flow.  (The Python
function first computes `num_cols`/`num_rows` directly and immediately
overwrites both with `num_intervals_{x,y} + 1`; only the final, effective
assignments are embedded.) -/

/-- `ideal_distance_x` in `generate_photo_plan_on_grid`. -/
def ideal_distance_x (camera : Camera) (dataset_spec : DatasetSpec) : ℚ :=
  (compute_distance_between_images camera dataset_spec).1

/-- `ideal_distance_y` in `generate_photo_plan_on_grid`. -/
def ideal_distance_y (camera : Camera) (dataset_spec : DatasetSpec) : ℚ :=
  (compute_distance_between_images camera dataset_spec).2

/-- `num_intervals_x = 0 if scan_dim_x == 0 else math.ceil(scan_dim_x / ideal_distance_x)`. -/
def num_intervals_x (camera : Camera) (dataset_spec : DatasetSpec) : ℤ :=
  if dataset_spec.scan_dimension_x = 0 then 0
  else ⌈(dataset_spec.scan_dimension_x : ℚ) / ideal_distance_x camera dataset_spec⌉

/-- `num_cols = num_intervals_x + 1`. -/
def num_cols (camera : Camera) (dataset_spec : DatasetSpec) : ℤ :=
  num_intervals_x camera dataset_spec + 1

/-- `num_intervals_y = 0 if scan_dim_y == 0 else math.ceil(scan_dim_y / ideal_distance_y)`. -/
def num_intervals_y (camera : Camera) (dataset_spec : DatasetSpec) : ℤ :=
  if dataset_spec.scan_dimension_y = 0 then 0
  else ⌈(dataset_spec.scan_dimension_y : ℚ) / ideal_distance_y camera dataset_spec⌉

/-- `num_rows = num_intervals_y + 1`. -/
def num_rows (camera : Camera) (dataset_spec : DatasetSpec) : ℤ :=
  num_intervals_y camera dataset_spec + 1

/-- `actual_distance_x = scan_dim_x / (num_cols - 1) if num_cols > 1 else 0.0`. -/
def actual_distance_x (camera : Camera) (dataset_spec : DatasetSpec) : ℚ :=
  if 1 < num_cols camera dataset_spec then
    (dataset_spec.scan_dimension_x : ℚ) / ((num_cols camera dataset_spec : ℚ) - 1)
  else 0

/-- `actual_distance_y = scan_dim_y / (num_rows - 1) if num_rows > 1 else 0.0`. -/
def actual_distance_y (camera : Camera) (dataset_spec : DatasetSpec) : ℚ :=
  if 1 < num_rows camera dataset_spec then
    (dataset_spec.scan_dimension_y : ℚ) / ((num_rows camera dataset_spec : ℚ) - 1)
  else 0

/-- The `x_coords` list built for row `r`: even rows left-to-right
(`c * actual_distance_x`), odd rows right-to-left
(`scan_dim_x - c * actual_distance_x`). -/
def row_x_coords (camera : Camera) (dataset_spec : DatasetSpec) (r : ℕ) : List ℚ :=
  if r % 2 = 0 then
    (List.range (num_cols camera dataset_spec).toNat).map
      (fun (c : ℕ) => (c : ℚ) * actual_distance_x camera dataset_spec)
  else
    (List.range (num_cols camera dataset_spec).toNat).map
      (fun (c : ℕ) => (dataset_spec.scan_dimension_x : ℚ) -
        (c : ℚ) * actual_distance_x camera dataset_spec)

/-- The waypoints appended for row `r`: one per entry of `x_coords`, at
`y = r * actual_distance_y`, constant `z = height` and constant capture speed. -/
def row_waypoints (camera : Camera) (dataset_spec : DatasetSpec) (r : ℕ) : List Waypoint :=
  (row_x_coords camera dataset_spec r).map
    (fun x_coord =>
      { x := x_coord
        y := (r : ℚ) * actual_distance_y camera dataset_spec
        z := dataset_spec.height
        speed := compute_speed_during_photo_capture camera dataset_spec 1 })

/-- Embedding of `generate_photo_plan_on_grid` (src/plan_computation.py):
the rows `r = 0, …, num_rows - 1` in order, each contributing its
`row_waypoints`. -/
def generate_photo_plan_on_grid (camera : Camera) (dataset_spec : DatasetSpec) :
    List Waypoint :=
  (List.range (num_rows camera dataset_spec).toNat).flatMap
    (row_waypoints camera dataset_spec)

/-- Test camera used for concrete witnesses: with `fx = image_size_x` and
`fy = image_size_y` the ground footprint at height `h` is exactly `(h, h)`. -/
def testCam : Camera :=
  { fx := 1000, fy := 1000, cx := 500, cy := 500,
    sensor_size_x_mm := 36, sensor_size_y_mm := 24,
    image_size_x := 1000, image_size_y := 1000 }

/-- Test dataset spec: height 100 m, overlap = sidelap = 0.7, so the ideal
spacing is 30 m on both axes; scan area 100 m × 0 m. -/
def testSpec : DatasetSpec :=
  { overlap := 7/10, sidelap := 7/10, height := 100,
    scan_dimension_x := 100, scan_dimension_y := 0, exposure_time_ms := 100 }

/-- Test dataset spec with both scan dimensions zero (degenerate point scan). -/
def testSpec00 : DatasetSpec :=
  { overlap := 7/10, sidelap := 7/10, height := 100,
    scan_dimension_x := 0, scan_dimension_y := 0, exposure_time_ms := 100 }

/-! ### Unfolding equations -/

theorem ideal_distance_x_eq (camera : Camera) (spec : DatasetSpec) :
    ideal_distance_x camera spec =
      camera.sensor_size_x_mm * (spec.height * 1000) /
        (camera.fx * (camera.sensor_size_x_mm / (camera.image_size_x : ℚ))) / 1000 *
        (1 - spec.overlap) := rfl

theorem ideal_distance_y_eq (camera : Camera) (spec : DatasetSpec) :
    ideal_distance_y camera spec =
      camera.sensor_size_y_mm * (spec.height * 1000) /
        (camera.fy * (camera.sensor_size_y_mm / (camera.image_size_y : ℚ))) / 1000 *
        (1 - spec.sidelap) := rfl

theorem capture_speed_eq (camera : Camera) (spec : DatasetSpec) (px : ℚ) :
    compute_speed_during_photo_capture camera spec px =
      spec.height / min camera.fx camera.fy * px /
        ((spec.exposure_time_ms : ℚ) / 1000) := rfl

/-! ### Positivity facts under the stated invariants -/

theorem ideal_distance_x_pos (camera : Camera) (spec : DatasetSpec)
    (hcam : ValidCamera camera) (hspec : ValidSpec spec) :
    0 < ideal_distance_x camera spec := by
  obtain ⟨hfx, hfy, hsx, hsy, hix, hiy⟩ := hcam
  obtain ⟨ho0, ho1, _, _, hh, _, _, _⟩ := hspec
  have hix' : (0 : ℚ) < (camera.image_size_x : ℚ) := by exact_mod_cast hix
  rw [ideal_distance_x_eq]
  have h1 : (0 : ℚ) < 1 - spec.overlap := by linarith
  have h2 : (0 : ℚ) < camera.fx * (camera.sensor_size_x_mm / (camera.image_size_x : ℚ)) :=
    mul_pos hfx (div_pos hsx hix')
  have h3 : (0 : ℚ) < camera.sensor_size_x_mm * (spec.height * 1000) :=
    mul_pos hsx (by linarith)
  exact mul_pos (div_pos (div_pos h3 h2) (by norm_num)) h1

theorem ideal_distance_y_pos (camera : Camera) (spec : DatasetSpec)
    (hcam : ValidCamera camera) (hspec : ValidSpec spec) :
    0 < ideal_distance_y camera spec := by
  obtain ⟨hfx, hfy, hsx, hsy, hix, hiy⟩ := hcam
  obtain ⟨_, _, hl0, hl1, hh, _, _, _⟩ := hspec
  have hiy' : (0 : ℚ) < (camera.image_size_y : ℚ) := by exact_mod_cast hiy
  rw [ideal_distance_y_eq]
  have h1 : (0 : ℚ) < 1 - spec.sidelap := by linarith
  have h2 : (0 : ℚ) < camera.fy * (camera.sensor_size_y_mm / (camera.image_size_y : ℚ)) :=
    mul_pos hfy (div_pos hsy hiy')
  have h3 : (0 : ℚ) < camera.sensor_size_y_mm * (spec.height * 1000) :=
    mul_pos hsy (by linarith)
  exact mul_pos (div_pos (div_pos h3 h2) (by norm_num)) h1

theorem capture_speed_pos (camera : Camera) (spec : DatasetSpec)
    (hcam : ValidCamera camera) (hspec : ValidSpec spec) :
    0 < compute_speed_during_photo_capture camera spec 1 := by
  obtain ⟨hfx, hfy, _, _, _, _⟩ := hcam
  obtain ⟨_, _, _, _, hh, _, _, he⟩ := hspec
  have he' : (0 : ℚ) < (spec.exposure_time_ms : ℚ) := by exact_mod_cast he
  rw [capture_speed_eq]
  have hmin : (0 : ℚ) < min camera.fx camera.fy := lt_min hfx hfy
  exact div_pos (by simpa using div_pos hh hmin) (div_pos he' (by norm_num))

/-! ### Interval and line counts -/

theorem num_intervals_x_nonneg (camera : Camera) (spec : DatasetSpec)
    (hcam : ValidCamera camera) (hspec : ValidSpec spec) :
    0 ≤ num_intervals_x camera spec := by
  rw [num_intervals_x]
  split
  · exact le_refl 0
  · apply Int.ceil_nonneg
    apply div_nonneg
    · exact_mod_cast hspec.2.2.2.2.2.1
    · exact le_of_lt (ideal_distance_x_pos camera spec hcam hspec)

theorem num_intervals_y_nonneg (camera : Camera) (spec : DatasetSpec)
    (hcam : ValidCamera camera) (hspec : ValidSpec spec) :
    0 ≤ num_intervals_y camera spec := by
  rw [num_intervals_y]
  split
  · exact le_refl 0
  · apply Int.ceil_nonneg
    apply div_nonneg
    · exact_mod_cast hspec.2.2.2.2.2.2.1
    · exact le_of_lt (ideal_distance_y_pos camera spec hcam hspec)

theorem num_intervals_x_pos (camera : Camera) (spec : DatasetSpec)
    (hcam : ValidCamera camera) (hspec : ValidSpec spec)
    (hdx : spec.scan_dimension_x ≠ 0) : 0 < num_intervals_x camera spec := by
  have hdx' : (0 : ℚ) < (spec.scan_dimension_x : ℚ) := by
    have := hspec.2.2.2.2.2.1
    exact_mod_cast lt_of_le_of_ne this (Ne.symm hdx)
  rw [num_intervals_x, if_neg hdx]
  exact Int.ceil_pos.mpr (div_pos hdx' (ideal_distance_x_pos camera spec hcam hspec))

theorem num_intervals_y_pos (camera : Camera) (spec : DatasetSpec)
    (hcam : ValidCamera camera) (hspec : ValidSpec spec)
    (hdy : spec.scan_dimension_y ≠ 0) : 0 < num_intervals_y camera spec := by
  have hdy' : (0 : ℚ) < (spec.scan_dimension_y : ℚ) := by
    have := hspec.2.2.2.2.2.2.1
    exact_mod_cast lt_of_le_of_ne this (Ne.symm hdy)
  rw [num_intervals_y, if_neg hdy]
  exact Int.ceil_pos.mpr (div_pos hdy' (ideal_distance_y_pos camera spec hcam hspec))

theorem num_cols_pos (camera : Camera) (spec : DatasetSpec)
    (hcam : ValidCamera camera) (hspec : ValidSpec spec) :
    0 < num_cols camera spec := by
  have := num_intervals_x_nonneg camera spec hcam hspec
  rw [num_cols]; omega

theorem num_rows_pos (camera : Camera) (spec : DatasetSpec)
    (hcam : ValidCamera camera) (hspec : ValidSpec spec) :
    0 < num_rows camera spec := by
  have := num_intervals_y_nonneg camera spec hcam hspec
  rw [num_rows]; omega

/-- If the grid has a single column then the scan width is zero. -/
theorem num_cols_eq_one_imp (camera : Camera) (spec : DatasetSpec)
    (hcam : ValidCamera camera) (hspec : ValidSpec spec)
    (h : ¬ 1 < num_cols camera spec) : spec.scan_dimension_x = 0 := by
  by_contra hdx
  have h1 := num_intervals_x_pos camera spec hcam hspec hdx
  rw [num_cols] at h; omega

/-- If the grid has a single row then the scan height is zero. -/
theorem num_rows_eq_one_imp (camera : Camera) (spec : DatasetSpec)
    (hcam : ValidCamera camera) (hspec : ValidSpec spec)
    (h : ¬ 1 < num_rows camera spec) : spec.scan_dimension_y = 0 := by
  by_contra hdy
  have h1 := num_intervals_y_pos camera spec hcam hspec hdy
  rw [num_rows] at h; omega

/-! ### The boundary-exact respacing -/

/-- The last grid line lands exactly on the far edge of the scan area:
`(num_cols - 1) * actual_distance_x = scan_dimension_x`, in every case. -/
theorem cols_mul_actual_distance_x (camera : Camera) (spec : DatasetSpec)
    (hcam : ValidCamera camera) (hspec : ValidSpec spec) :
    ((num_cols camera spec : ℚ) - 1) * actual_distance_x camera spec =
      (spec.scan_dimension_x : ℚ) := by
  rw [actual_distance_x]
  by_cases h : 1 < num_cols camera spec
  · rw [if_pos h, mul_comm]
    apply div_mul_cancel₀
    have h2 : (2 : ℚ) ≤ (num_cols camera spec : ℚ) := by exact_mod_cast h
    intro hzero; linarith
  · rw [if_neg h, mul_zero, num_cols_eq_one_imp camera spec hcam hspec h]
    norm_num

theorem rows_mul_actual_distance_y (camera : Camera) (spec : DatasetSpec)
    (hcam : ValidCamera camera) (hspec : ValidSpec spec) :
    ((num_rows camera spec : ℚ) - 1) * actual_distance_y camera spec =
      (spec.scan_dimension_y : ℚ) := by
  rw [actual_distance_y]
  by_cases h : 1 < num_rows camera spec
  · rw [if_pos h, mul_comm]
    apply div_mul_cancel₀
    have h2 : (2 : ℚ) ≤ (num_rows camera spec : ℚ) := by exact_mod_cast h
    intro hzero; linarith
  · rw [if_neg h, mul_zero, num_rows_eq_one_imp camera spec hcam hspec h]
    norm_num

theorem actual_distance_x_nonneg (camera : Camera) (spec : DatasetSpec)
    (hspec : ValidSpec spec) : 0 ≤ actual_distance_x camera spec := by
  rw [actual_distance_x]
  split
  · rename_i h
    apply div_nonneg
    · exact_mod_cast hspec.2.2.2.2.2.1
    · have h2 : (2 : ℚ) ≤ (num_cols camera spec : ℚ) := by exact_mod_cast h
      linarith
  · exact le_refl 0

theorem actual_distance_y_nonneg (camera : Camera) (spec : DatasetSpec)
    (hspec : ValidSpec spec) : 0 ≤ actual_distance_y camera spec := by
  rw [actual_distance_y]
  split
  · rename_i h
    apply div_nonneg
    · exact_mod_cast hspec.2.2.2.2.2.2.1
    · have h2 : (2 : ℚ) ≤ (num_rows camera spec : ℚ) := by exact_mod_cast h
      linarith
  · exact le_refl 0

/-- The re-derived spacing never exceeds the ideal overlap-derived spacing. -/
theorem actual_le_ideal_x (camera : Camera) (spec : DatasetSpec)
    (hcam : ValidCamera camera) (hspec : ValidSpec spec)
    (hdx : 0 < spec.scan_dimension_x) :
    actual_distance_x camera spec ≤ ideal_distance_x camera spec := by
  have hdx' : (0 : ℚ) < (spec.scan_dimension_x : ℚ) := by exact_mod_cast hdx
  have hideal := ideal_distance_x_pos camera spec hcam hspec
  have hn := num_intervals_x_pos camera spec hcam hspec (by omega)
  have hcols : 1 < num_cols camera spec := by rw [num_cols]; omega
  rw [actual_distance_x, if_pos hcols]
  have hceil : (spec.scan_dimension_x : ℚ) / ideal_distance_x camera spec ≤
      ((num_intervals_x camera spec : ℤ) : ℚ) := by
    rw [num_intervals_x, if_neg (by omega)]
    exact Int.le_ceil _
  have hn' : (0 : ℚ) < (num_cols camera spec : ℚ) - 1 := by
    have : (2 : ℚ) ≤ (num_cols camera spec : ℚ) := by exact_mod_cast hcols
    linarith
  rw [div_le_iff₀ hn']
  have hcast : ((num_intervals_x camera spec : ℤ) : ℚ) = (num_cols camera spec : ℚ) - 1 := by
    rw [num_cols]; push_cast; ring
  rw [hcast] at hceil
  calc (spec.scan_dimension_x : ℚ)
      = spec.scan_dimension_x / ideal_distance_x camera spec *
          ideal_distance_x camera spec := by
        field_simp
    _ ≤ ((num_cols camera spec : ℚ) - 1) * ideal_distance_x camera spec :=
        mul_le_mul_of_nonneg_right hceil (le_of_lt hideal)
    _ = ideal_distance_x camera spec * ((num_cols camera spec : ℚ) - 1) := by ring

theorem actual_le_ideal_y (camera : Camera) (spec : DatasetSpec)
    (hcam : ValidCamera camera) (hspec : ValidSpec spec)
    (hdy : 0 < spec.scan_dimension_y) :
    actual_distance_y camera spec ≤ ideal_distance_y camera spec := by
  have hdy' : (0 : ℚ) < (spec.scan_dimension_y : ℚ) := by exact_mod_cast hdy
  have hideal := ideal_distance_y_pos camera spec hcam hspec
  have hn := num_intervals_y_pos camera spec hcam hspec (by omega)
  have hrows : 1 < num_rows camera spec := by rw [num_rows]; omega
  rw [actual_distance_y, if_pos hrows]
  have hceil : (spec.scan_dimension_y : ℚ) / ideal_distance_y camera spec ≤
      ((num_intervals_y camera spec : ℤ) : ℚ) := by
    rw [num_intervals_y, if_neg (by omega)]
    exact Int.le_ceil _
  have hn' : (0 : ℚ) < (num_rows camera spec : ℚ) - 1 := by
    have : (2 : ℚ) ≤ (num_rows camera spec : ℚ) := by exact_mod_cast hrows
    linarith
  rw [div_le_iff₀ hn']
  have hcast : ((num_intervals_y camera spec : ℤ) : ℚ) = (num_rows camera spec : ℚ) - 1 := by
    rw [num_rows]; push_cast; ring
  rw [hcast] at hceil
  calc (spec.scan_dimension_y : ℚ)
      = spec.scan_dimension_y / ideal_distance_y camera spec *
          ideal_distance_y camera spec := by
        field_simp
    _ ≤ ((num_rows camera spec : ℚ) - 1) * ideal_distance_y camera spec :=
        mul_le_mul_of_nonneg_right hceil (le_of_lt hideal)
    _ = ideal_distance_y camera spec * ((num_rows camera spec : ℚ) - 1) := by ring

/-! ### Row structure -/

theorem row_x_coords_length (camera : Camera) (spec : DatasetSpec) (r : ℕ) :
    (row_x_coords camera spec r).length = (num_cols camera spec).toNat := by
  rw [row_x_coords]
  split <;> simp

theorem row_waypoints_length (camera : Camera) (spec : DatasetSpec) (r : ℕ) :
    (row_waypoints camera spec r).length = (num_cols camera spec).toNat := by
  rw [row_waypoints, List.length_map, row_x_coords_length]

theorem row_x_coords_getElem (camera : Camera) (spec : DatasetSpec) (r c : ℕ)
    (h : c < (num_cols camera spec).toNat) :
    (row_x_coords camera spec r)[c]? =
      some (if r % 2 = 0 then (c : ℚ) * actual_distance_x camera spec
        else (spec.scan_dimension_x : ℚ) - (c : ℚ) * actual_distance_x camera spec) := by
  by_cases hr : r % 2 = 0
  · rw [row_x_coords, if_pos hr, if_pos hr, List.getElem?_map, List.getElem?_range h,
      Option.map_some']
  · rw [row_x_coords, if_neg hr, if_neg hr, List.getElem?_map, List.getElem?_range h,
      Option.map_some']

theorem row_waypoints_getElem (camera : Camera) (spec : DatasetSpec) (r c : ℕ)
    (h : c < (num_cols camera spec).toNat) :
    (row_waypoints camera spec r)[c]? =
      some { x := if r % 2 = 0 then (c : ℚ) * actual_distance_x camera spec
               else (spec.scan_dimension_x : ℚ) - (c : ℚ) * actual_distance_x camera spec,
             y := (r : ℚ) * actual_distance_y camera spec,
             z := spec.height,
             speed := compute_speed_during_photo_capture camera spec 1 } := by
  rw [row_waypoints, List.getElem?_map, row_x_coords_getElem camera spec r c h,
    Option.map_some']

/-- Membership decomposition: every waypoint of the plan comes from a row
index `r < num_rows` and a column index `c < num_cols` and has the closed
form produced by the generator. -/
theorem mem_plan_decomp (camera : Camera) (spec : DatasetSpec) (w : Waypoint)
    (hw : w ∈ generate_photo_plan_on_grid camera spec) :
    ∃ r : ℕ, r < (num_rows camera spec).toNat ∧
      ∃ c : ℕ, c < (num_cols camera spec).toNat ∧
        w = { x := if r % 2 = 0 then (c : ℚ) * actual_distance_x camera spec
                else (spec.scan_dimension_x : ℚ) - (c : ℚ) * actual_distance_x camera spec,
              y := (r : ℚ) * actual_distance_y camera spec,
              z := spec.height,
              speed := compute_speed_during_photo_capture camera spec 1 } := by
  rw [generate_photo_plan_on_grid, List.mem_flatMap] at hw
  obtain ⟨r, hr, hwr⟩ := hw
  rw [List.mem_range] at hr
  refine ⟨r, hr, ?_⟩
  rw [row_waypoints, List.mem_map] at hwr
  obtain ⟨x0, hx0, hwx⟩ := hwr
  rw [row_x_coords] at hx0
  by_cases hpar : r % 2 = 0
  · rw [if_pos hpar] at hx0
    rw [List.mem_map] at hx0
    obtain ⟨c, hc, hcx⟩ := hx0
    rw [List.mem_range] at hc
    exact ⟨c, hc, by rw [← hwx, ← hcx, if_pos hpar]⟩
  · rw [if_neg hpar] at hx0
    rw [List.mem_map] at hx0
    obtain ⟨c, hc, hcx⟩ := hx0
    rw [List.mem_range] at hc
    exact ⟨c, hc, by rw [← hwx, ← hcx, if_neg hpar]⟩

/-- The plan has exactly `num_rows * num_cols` entries (as natural numbers). -/
theorem plan_length_eq (camera : Camera) (spec : DatasetSpec) :
    (generate_photo_plan_on_grid camera spec).length =
      (num_rows camera spec).toNat * (num_cols camera spec).toNat := by
  rw [generate_photo_plan_on_grid, List.length_flatMap]
  have hmap : List.map (List.length ∘ row_waypoints camera spec)
      (List.range (num_rows camera spec).toNat) =
      List.replicate (num_rows camera spec).toNat (num_cols camera spec).toNat := by
    rw [show List.length ∘ row_waypoints camera spec =
        Function.const ℕ (num_cols camera spec).toNat from ?_]
    · rw [List.map_const, List.length_range]
    · funext r
      exact row_waypoints_length camera spec r
  rw [hmap, List.sum_replicate, smul_eq_mul]

/-! ### Concrete evaluations on the test camera and dataset spec -/

theorem eval_ideal_x : ideal_distance_x testCam testSpec = 30 := by
  rw [ideal_distance_x_eq]; norm_num [testCam, testSpec]

theorem eval_ideal_y : ideal_distance_y testCam testSpec = 30 := by
  rw [ideal_distance_y_eq]; norm_num [testCam, testSpec]

theorem eval_num_intervals_x : num_intervals_x testCam testSpec = 4 := by
  rw [num_intervals_x, eval_ideal_x]
  rw [show testSpec.scan_dimension_x = 100 from rfl]
  rw [if_neg (by norm_num)]
  rw [Int.ceil_eq_iff]
  norm_num

theorem eval_num_cols : num_cols testCam testSpec = 5 := by
  rw [num_cols, eval_num_intervals_x]; norm_num

theorem eval_num_rows : num_rows testCam testSpec = 1 := by
  rw [num_rows, num_intervals_y, if_pos (show testSpec.scan_dimension_y = 0 from rfl)]
  norm_num

theorem eval_actual_x : actual_distance_x testCam testSpec = 25 := by
  rw [actual_distance_x, eval_num_cols, if_pos (by norm_num)]
  rw [show testSpec.scan_dimension_x = 100 from rfl]
  norm_num

theorem eval_actual_y : actual_distance_y testCam testSpec = 0 := by
  rw [actual_distance_y, eval_num_rows, if_neg (by norm_num)]

theorem eval_speed : compute_speed_during_photo_capture testCam testSpec 1 = 1 := by
  rw [capture_speed_eq]; norm_num [testCam, testSpec]

theorem eval_valid_cam : ValidCamera testCam := by norm_num [testCam]

theorem eval_valid_spec : ValidSpec testSpec :=
  ⟨by norm_num [testSpec], by norm_num [testSpec], by norm_num [testSpec],
   by norm_num [testSpec], by norm_num [testSpec], by norm_num [testSpec],
   by norm_num [testSpec], by norm_num [testSpec]⟩

theorem eval_valid_spec00 : ValidSpec testSpec00 :=
  ⟨by norm_num [testSpec00], by norm_num [testSpec00], by norm_num [testSpec00],
   by norm_num [testSpec00], by norm_num [testSpec00], by norm_num [testSpec00],
   by norm_num [testSpec00], by norm_num [testSpec00]⟩

theorem eval_speed00 : compute_speed_during_photo_capture testCam testSpec00 1 = 1 := by
  rw [capture_speed_eq]; norm_num [testCam, testSpec00]

/-! ### Claim theorems -/

/-- C1: for every Camera and DatasetSpec satisfying the stated invariants,
`generate_photo_plan_on_grid` returns a list of exactly
`num_rows * num_cols` waypoints, where per axis the interval count is 0 if
that axis's scan dimension is 0 and `⌈scan_dimension / ideal_distance⌉`
otherwise (the ideal distance being the overlap/sidelap-derived spacing
from `compute_distance_between_images`), and the line count per axis is
`intervals + 1`. -/
theorem plan_length_claim (camera : Camera) (spec : DatasetSpec)
    (hcam : ValidCamera camera) (hspec : ValidSpec spec) :
    (generate_photo_plan_on_grid camera spec).length =
      (num_rows camera spec).toNat * (num_cols camera spec).toNat ∧
    num_rows camera spec = num_intervals_y camera spec + 1 ∧
    num_cols camera spec = num_intervals_x camera spec + 1 ∧
    num_intervals_x camera spec =
      (if spec.scan_dimension_x = 0 then 0
       else ⌈(spec.scan_dimension_x : ℚ) / ideal_distance_x camera spec⌉) ∧
    num_intervals_y camera spec =
      (if spec.scan_dimension_y = 0 then 0
       else ⌈(spec.scan_dimension_y : ℚ) / ideal_distance_y camera spec⌉) ∧
    ideal_distance_x camera spec = (compute_distance_between_images camera spec).1 ∧
    ideal_distance_y camera spec = (compute_distance_between_images camera spec).2 :=
  ⟨plan_length_eq camera spec, rfl, rfl, rfl, rfl, rfl, rfl⟩

/-- Witness for C1 at the concrete test camera and spec: the hypotheses hold
and the plan of the 100 m × 0 m scan has `1 * 5 = 5` waypoints. -/
theorem plan_length_claim_witness :
    ValidCamera testCam ∧ ValidSpec testSpec ∧
      (generate_photo_plan_on_grid testCam testSpec).length =
        (num_rows testCam testSpec).toNat * (num_cols testCam testSpec).toNat ∧
      (generate_photo_plan_on_grid testCam testSpec).length = 5 :=
  ⟨eval_valid_cam, eval_valid_spec,
    (plan_length_claim testCam testSpec eval_valid_cam eval_valid_spec).1,
    by rw [plan_length_eq, eval_num_rows, eval_num_cols]; decide⟩

/-- C2: per axis the actual spacing equals `scan_dimension / (lines - 1)`
when there is more than one grid line and `0` otherwise; under the
preconditions it is at most the ideal overlap-derived spacing, and
`(lines - 1) * actual_distance = scan_dimension` exactly, so the last
line lands exactly on the scan boundary. -/
theorem respacing_claim (camera : Camera) (spec : DatasetSpec)
    (hcam : ValidCamera camera) (hspec : ValidSpec spec) :
    (1 < num_cols camera spec →
      actual_distance_x camera spec =
        (spec.scan_dimension_x : ℚ) / ((num_cols camera spec : ℚ) - 1)) ∧
    (¬ 1 < num_cols camera spec → actual_distance_x camera spec = 0) ∧
    (0 < spec.scan_dimension_x →
      actual_distance_x camera spec ≤ ideal_distance_x camera spec) ∧
    ((num_cols camera spec : ℚ) - 1) * actual_distance_x camera spec =
      (spec.scan_dimension_x : ℚ) ∧
    (1 < num_rows camera spec →
      actual_distance_y camera spec =
        (spec.scan_dimension_y : ℚ) / ((num_rows camera spec : ℚ) - 1)) ∧
    (¬ 1 < num_rows camera spec → actual_distance_y camera spec = 0) ∧
    (0 < spec.scan_dimension_y →
      actual_distance_y camera spec ≤ ideal_distance_y camera spec) ∧
    ((num_rows camera spec : ℚ) - 1) * actual_distance_y camera spec =
      (spec.scan_dimension_y : ℚ) := by
  refine ⟨?_, ?_, actual_le_ideal_x camera spec hcam hspec,
    cols_mul_actual_distance_x camera spec hcam hspec, ?_, ?_,
    actual_le_ideal_y camera spec hcam hspec,
    rows_mul_actual_distance_y camera spec hcam hspec⟩
  · intro h; rw [actual_distance_x, if_pos h]
  · intro h; rw [actual_distance_x, if_neg h]
  · intro h; rw [actual_distance_y, if_pos h]
  · intro h; rw [actual_distance_y, if_neg h]

/-- Witness for C2 at the concrete test camera and spec: the hypotheses
hold, and on the x axis the re-derived spacing 25 is indeed at most the
ideal spacing 30. -/
theorem respacing_claim_witness :
    ValidCamera testCam ∧ ValidSpec testSpec ∧ 0 < testSpec.scan_dimension_x ∧
      actual_distance_x testCam testSpec ≤ ideal_distance_x testCam testSpec ∧
      actual_distance_x testCam testSpec = 25 ∧
      ideal_distance_x testCam testSpec = 30 :=
  ⟨eval_valid_cam, eval_valid_spec, by decide,
    (respacing_claim testCam testSpec eval_valid_cam eval_valid_spec).2.2.1 (by decide),
    eval_actual_x, eval_ideal_x⟩

/-- C4: with both scan dimensions zero, the plan is exactly one waypoint at
`(0, 0, height, capture speed)`. -/
theorem degenerate_point_claim (camera : Camera) (spec : DatasetSpec)
    (hcam : ValidCamera camera) (hspec : ValidSpec spec)
    (hx : spec.scan_dimension_x = 0) (hy : spec.scan_dimension_y = 0) :
    generate_photo_plan_on_grid camera spec =
      [{ x := 0, y := 0, z := spec.height,
         speed := compute_speed_during_photo_capture camera spec 1 }] := by
  have hrows : num_rows camera spec = 1 := by
    rw [num_rows, num_intervals_y, if_pos hy]; norm_num
  have hcols : num_cols camera spec = 1 := by
    rw [num_cols, num_intervals_x, if_pos hx]; norm_num

  rw [generate_photo_plan_on_grid, hrows]
  rw [show ((1 : ℤ).toNat) = 1 from rfl]
  rw [show List.range 1 = [0] from by decide]
  rw [show ([0] : List ℕ).flatMap (row_waypoints camera spec) =
      row_waypoints camera spec 0 from by simp]
  rw [row_waypoints, row_x_coords, if_pos (by norm_num)]
  rw [hcols]
  rw [show ((1 : ℤ).toNat) = 1 from rfl]
  rw [show List.range 1 = [0] from by decide]
  simp

/-- Witness for C4 at the concrete test camera and the all-zero scan spec. -/
theorem degenerate_point_claim_witness :
    ValidCamera testCam ∧ ValidSpec testSpec00 ∧
      testSpec00.scan_dimension_x = 0 ∧ testSpec00.scan_dimension_y = 0 ∧
      generate_photo_plan_on_grid testCam testSpec00 =
        [{ x := 0, y := 0, z := testSpec00.height,
           speed := compute_speed_during_photo_capture testCam testSpec00 1 }] :=
  ⟨eval_valid_cam, eval_valid_spec00, rfl, rfl,
    degenerate_point_claim testCam testSpec00 eval_valid_cam eval_valid_spec00 rfl rfl⟩

/-- C5: for every valid Camera and DatasetSpec, the plan is non-empty and
every waypoint has `z = height` and `speed = capture speed` (hence both are
constant across the plan), with that common speed non-negative. -/
theorem constant_fields_claim (camera : Camera) (spec : DatasetSpec)
    (hcam : ValidCamera camera) (hspec : ValidSpec spec) :
    generate_photo_plan_on_grid camera spec ≠ [] ∧
    ∀ w ∈ generate_photo_plan_on_grid camera spec,
      w.z = spec.height ∧
      w.speed = compute_speed_during_photo_capture camera spec 1 ∧
      0 ≤ w.speed := by
  constructor
  · intro hnil
    have hlen := plan_length_eq camera spec
    rw [hnil, List.length_nil] at hlen
    have hr := num_rows_pos camera spec hcam hspec
    have hc := num_cols_pos camera spec hcam hspec
    have hr' : 0 < (num_rows camera spec).toNat := by omega
    have hc' : 0 < (num_cols camera spec).toNat := by omega
    have := Nat.mul_pos hr' hc'
    omega
  · intro w hw
    obtain ⟨r, hr, c, hc, hweq⟩ := mem_plan_decomp camera spec w hw
    have hsp := capture_speed_pos camera spec hcam hspec
    rw [hweq]
    exact ⟨rfl, rfl, le_of_lt hsp⟩

/-- Witness for C5 at the concrete test camera and spec. -/
theorem constant_fields_claim_witness :
    ValidCamera testCam ∧ ValidSpec testSpec ∧
      (generate_photo_plan_on_grid testCam testSpec ≠ [] ∧
        ∀ w ∈ generate_photo_plan_on_grid testCam testSpec,
          w.z = testSpec.height ∧
          w.speed = compute_speed_during_photo_capture testCam testSpec 1 ∧
          0 ≤ w.speed) :=
  ⟨eval_valid_cam, eval_valid_spec,
    constant_fields_claim testCam testSpec eval_valid_cam eval_valid_spec⟩

/-! ### Row endpoints -/

theorem num_cols_toNat_cast (camera : Camera) (spec : DatasetSpec)
    (hcam : ValidCamera camera) (hspec : ValidSpec spec) :
    (((num_cols camera spec).toNat - 1 : ℕ) : ℚ) = (num_cols camera spec : ℚ) - 1 := by
  have h := num_cols_pos camera spec hcam hspec
  have h1 : 1 ≤ (num_cols camera spec).toNat := by omega
  have h2 : ((num_cols camera spec).toNat : ℤ) = num_cols camera spec :=
    Int.toNat_of_nonneg (by omega)
  rw [Nat.cast_sub h1, Nat.cast_one]
  congr 1
  exact_mod_cast h2

/-- The x coordinate of the last waypoint of row `r`: the far boundary
`scan_dimension_x` on even (forward) rows, `0` on odd (reverse) rows. -/
theorem row_last_x (camera : Camera) (spec : DatasetSpec)
    (hcam : ValidCamera camera) (hspec : ValidSpec spec) (r : ℕ) :
    Option.map Waypoint.x (row_waypoints camera spec r).getLast? =
      some (if r % 2 = 0 then (spec.scan_dimension_x : ℚ) else 0) := by
  have hc := num_cols_pos camera spec hcam hspec
  have hn : 0 < (num_cols camera spec).toNat := by omega
  rw [List.getLast?_eq_getElem?, row_waypoints_length,
    row_waypoints_getElem camera spec r _ (by omega), Option.map_some']
  have hx : (((num_cols camera spec).toNat - 1 : ℕ) : ℚ) * actual_distance_x camera spec =
      (spec.scan_dimension_x : ℚ) := by
    rw [num_cols_toNat_cast camera spec hcam hspec]
    exact cols_mul_actual_distance_x camera spec hcam hspec
  by_cases hpar : r % 2 = 0
  · rw [if_pos hpar, if_pos hpar]
    show some ((((num_cols camera spec).toNat - 1 : ℕ) : ℚ) *
        actual_distance_x camera spec) = some (spec.scan_dimension_x : ℚ)
    rw [hx]
  · rw [if_neg hpar, if_neg hpar]
    show some ((spec.scan_dimension_x : ℚ) -
        (((num_cols camera spec).toNat - 1 : ℕ) : ℚ) *
          actual_distance_x camera spec) = some (0 : ℚ)
    rw [hx, sub_self]

/-- The x coordinate of the first waypoint of row `r`: `0` on even
(forward) rows, the far boundary `scan_dimension_x` on odd (reverse) rows. -/
theorem row_head_x (camera : Camera) (spec : DatasetSpec)
    (hcam : ValidCamera camera) (hspec : ValidSpec spec) (r : ℕ) :
    Option.map Waypoint.x (row_waypoints camera spec r).head? =
      some (if r % 2 = 0 then 0 else (spec.scan_dimension_x : ℚ)) := by
  have hc := num_cols_pos camera spec hcam hspec
  have hn : 0 < (num_cols camera spec).toNat := by omega
  rw [List.head?_eq_getElem?, row_waypoints_getElem camera spec r 0 hn, Option.map_some']
  by_cases hpar : r % 2 = 0
  · rw [if_pos hpar, if_pos hpar]
    show some (((0 : ℕ) : ℚ) * actual_distance_x camera spec) = some (0 : ℚ)
    rw [Nat.cast_zero, zero_mul]
  · rw [if_neg hpar, if_neg hpar]
    show some ((spec.scan_dimension_x : ℚ) -
        ((0 : ℕ) : ℚ) * actual_distance_x camera spec) =
      some (spec.scan_dimension_x : ℚ)
    rw [Nat.cast_zero, zero_mul, sub_zero]

/-- With a single row the whole plan is just row 0. -/
theorem plan_single_row (camera : Camera) (spec : DatasetSpec)
    (h : num_rows camera spec = 1) :
    generate_photo_plan_on_grid camera spec = row_waypoints camera spec 0 := by
  rw [generate_photo_plan_on_grid, h]
  rw [show ((1 : ℤ).toNat) = 1 from rfl, show List.range 1 = [0] from by decide]
  simp

/-- C3: lawn-mower continuity — the plan is the concatenation of its rows in
order, and for any two consecutive rows the last waypoint of the earlier row
and the first waypoint of the later row have the same x coordinate. -/
theorem lawnmower_claim (camera : Camera) (spec : DatasetSpec)
    (hcam : ValidCamera camera) (hspec : ValidSpec spec) :
    generate_photo_plan_on_grid camera spec =
      (List.range (num_rows camera spec).toNat).flatMap (row_waypoints camera spec) ∧
    ∀ r : ℕ, r + 1 < (num_rows camera spec).toNat →
      ∃ xj : ℚ,
        Option.map Waypoint.x (row_waypoints camera spec r).getLast? = some xj ∧
        Option.map Waypoint.x (row_waypoints camera spec (r + 1)).head? = some xj := by
  refine ⟨rfl, fun r _ => ?_⟩
  by_cases hpar : r % 2 = 0
  · have hodd : ¬ (r + 1) % 2 = 0 := by omega
    exact ⟨(spec.scan_dimension_x : ℚ),
      by rw [row_last_x camera spec hcam hspec r, if_pos hpar],
      by rw [row_head_x camera spec hcam hspec (r + 1), if_neg hodd]⟩
  · have heven : (r + 1) % 2 = 0 := by omega
    exact ⟨0,
      by rw [row_last_x camera spec hcam hspec r, if_neg hpar],
      by rw [row_head_x camera spec hcam hspec (r + 1), if_pos heven]⟩

/-- Test dataset spec with a full 100 m × 100 m scan (five rows of five
columns with the test camera). -/
def testSpec2 : DatasetSpec :=
  { overlap := 7/10, sidelap := 7/10, height := 100,
    scan_dimension_x := 100, scan_dimension_y := 100, exposure_time_ms := 100 }

theorem eval_valid_spec2 : ValidSpec testSpec2 :=
  ⟨by norm_num [testSpec2], by norm_num [testSpec2], by norm_num [testSpec2],
   by norm_num [testSpec2], by norm_num [testSpec2], by norm_num [testSpec2],
   by norm_num [testSpec2], by norm_num [testSpec2]⟩

theorem eval_ideal_y2 : ideal_distance_y testCam testSpec2 = 30 := by
  rw [ideal_distance_y_eq]; norm_num [testCam, testSpec2]

theorem eval_num_rows2 : num_rows testCam testSpec2 = 5 := by
  rw [num_rows, num_intervals_y, eval_ideal_y2]
  rw [show testSpec2.scan_dimension_y = 100 from rfl]
  rw [if_neg (by norm_num)]
  rw [show (⌈((100 : ℤ) : ℚ) / 30⌉ = 4) from by rw [Int.ceil_eq_iff]; norm_num]
  norm_num

/-- Witness for C3 on the 100 m × 100 m scan: rows 0 and 1 exist and share
their junction x coordinate. -/
theorem lawnmower_claim_witness :
    ValidCamera testCam ∧ ValidSpec testSpec2 ∧
      0 + 1 < (num_rows testCam testSpec2).toNat ∧
      ∃ xj : ℚ,
        Option.map Waypoint.x (row_waypoints testCam testSpec2 0).getLast? = some xj ∧
        Option.map Waypoint.x (row_waypoints testCam testSpec2 1).head? = some xj :=
  ⟨eval_valid_cam, eval_valid_spec2, by rw [eval_num_rows2]; decide,
    (lawnmower_claim testCam testSpec2 eval_valid_cam eval_valid_spec2).2 0
      (by rw [eval_num_rows2]; decide)⟩

/-- C6 (amended): `project_world_point_to_image` performs no check on `Z`
and never signals a domain error — for every camera and every point,
including points with `Z = 0`, it returns a pixel-coordinate value.  (The
original claim, that a `Z = 0` input fails with an explicit domain error,
is refuted by `projection_zero_z_counterexample`.) -/
theorem projection_total_claim (camera : Camera) (point : ℚ × ℚ × ℚ) :
    (project_world_point_to_image camera point).isOk = true := rfl

/-- C6 counterexample: at the concrete camera `testCam` and the world point
`(1, 1, 0)` whose `Z` coordinate is zero, `project_world_point_to_image`
returns successfully instead of failing with a domain error. -/
theorem projection_zero_z_counterexample :
    (project_world_point_to_image testCam (1, 1, 0)).isOk = true := rfl

/-- C7: on odd rows the x sequence `scan_dimension_x - c * actual_distance_x`
is pointwise `(num_cols - 1 - c) * actual_distance_x`, and as a list it is
exactly the reversal of the even-row sequence `c * actual_distance_x`. -/
theorem reverse_row_claim (camera : Camera) (spec : DatasetSpec)
    (hcam : ValidCamera camera) (hspec : ValidSpec spec) :
    (∀ c : ℕ, c < (num_cols camera spec).toNat →
      (spec.scan_dimension_x : ℚ) - (c : ℚ) * actual_distance_x camera spec =
        (((num_cols camera spec).toNat - 1 - c : ℕ) : ℚ) *
          actual_distance_x camera spec) ∧
    (∀ r r' : ℕ, r % 2 = 1 → r' % 2 = 0 →
      row_x_coords camera spec r = (row_x_coords camera spec r').reverse) := by
  have hb := cols_mul_actual_distance_x camera spec hcam hspec
  have hpos := num_cols_pos camera spec hcam hspec
  have hpoint : ∀ c : ℕ, c < (num_cols camera spec).toNat →
      (spec.scan_dimension_x : ℚ) - (c : ℚ) * actual_distance_x camera spec =
        (((num_cols camera spec).toNat - 1 - c : ℕ) : ℚ) *
          actual_distance_x camera spec := by
    intro c hcl
    have h3 : (((num_cols camera spec).toNat - 1 - c : ℕ) : ℤ) =
        num_cols camera spec - 1 - c := by omega
    have hcast : (((num_cols camera spec).toNat - 1 - c : ℕ) : ℚ) =
        (num_cols camera spec : ℚ) - 1 - c := by
      have h4 := congrArg (fun z : ℤ => (z : ℚ)) h3
      push_cast at h4
      exact h4
    rw [hcast, ← hb]
    ring
  refine ⟨hpoint, ?_⟩
  intro r r' hr hr'
  rw [row_x_coords, if_neg (by omega), row_x_coords, if_pos hr']
  apply List.ext_getElem
  · simp
  · intro i h1 h2
    have hi : i < (num_cols camera spec).toNat := by simpa using h1
    simp only [List.getElem_reverse, List.getElem_map, List.getElem_range,
      List.length_map, List.length_range]
    exact hpoint i hi

/-- Witness for C7 at the concrete test camera and spec: row 1 of the
100 m × 0 m scan is the reversal of row 0. -/
theorem reverse_row_claim_witness :
    ValidCamera testCam ∧ ValidSpec testSpec ∧
      row_x_coords testCam testSpec 1 = (row_x_coords testCam testSpec 0).reverse :=
  ⟨eval_valid_cam, eval_valid_spec,
    (reverse_row_claim testCam testSpec eval_valid_cam eval_valid_spec).2 1 0
      (by norm_num) (by norm_num)⟩

/-- C8: for every camera, spec and pixel budget, the capture speed equals
`gsd * allowed_movement_px / (exposure_time_ms / 1000)`; and whenever the
exposure time `2 * k` is halved to `k`, the returned speed doubles (camera
and height fixed). -/
theorem speed_formula_claim (camera : Camera) (spec : DatasetSpec) (px : ℚ) :
    compute_speed_during_photo_capture camera spec px =
      compute_ground_sampling_distance camera spec.height * px /
        ((spec.exposure_time_ms : ℚ) / 1000) ∧
    ∀ k : ℤ, 0 < k → spec.exposure_time_ms = 2 * k →
      compute_speed_during_photo_capture camera
          { spec with exposure_time_ms := k } 1 =
        2 * compute_speed_during_photo_capture camera spec 1 := by
  refine ⟨rfl, ?_⟩
  intro k hk he
  rw [capture_speed_eq, capture_speed_eq]
  show spec.height / min camera.fx camera.fy * 1 / ((k : ℚ) / 1000) = _
  rw [he]
  have hk' : ((k : ℤ) : ℚ) ≠ 0 := by
    have : (0 : ℚ) < (k : ℚ) := by exact_mod_cast hk
    linarith
  push_cast
  field_simp
  ring

/-- Witness for C8 at the concrete test camera and spec: exposure 100 ms
halves to 50 ms, and the speed formula instance holds. -/
theorem speed_formula_claim_witness :
    (0 : ℤ) < 50 ∧ testSpec.exposure_time_ms = 2 * 50 ∧
      compute_speed_during_photo_capture testCam testSpec 1 =
        compute_ground_sampling_distance testCam testSpec.height * 1 /
          ((testSpec.exposure_time_ms : ℚ) / 1000) ∧
      compute_speed_during_photo_capture testCam
          { testSpec with exposure_time_ms := 50 } 1 =
        2 * compute_speed_during_photo_capture testCam testSpec 1 :=
  ⟨by norm_num, by decide,
    (speed_formula_claim testCam testSpec 1).1,
    (speed_formula_claim testCam testSpec 1).2 50 (by norm_num) (by decide)⟩

/-- C9: the ground sampling distance is `distance / min(fx, fy)`; for a
positive distance this equals the coarser per-axis resolution
`max(distance / fx, distance / fy)`, and it scales linearly with distance. -/
theorem gsd_claim (camera : Camera) (d : ℚ) (hfx : 0 < camera.fx)
    (hfy : 0 < camera.fy) :
    compute_ground_sampling_distance camera d = d / min camera.fx camera.fy ∧
    (0 < d → compute_ground_sampling_distance camera d =
      max (d / camera.fx) (d / camera.fy)) ∧
    compute_ground_sampling_distance camera (2 * d) =
      2 * compute_ground_sampling_distance camera d := by
  refine ⟨rfl, ?_, ?_⟩
  · intro hd
    rw [compute_ground_sampling_distance]
    rcases le_total camera.fx camera.fy with h | h
    · rw [min_eq_left h, max_eq_left (div_le_div_of_nonneg_left hd.le hfx h)]
    · rw [min_eq_right h, max_eq_right (div_le_div_of_nonneg_left hd.le hfy h)]
  · rw [compute_ground_sampling_distance, compute_ground_sampling_distance,
      mul_div_assoc]

/-- Witness for C9 at the concrete test camera and distance 100 m. -/
theorem gsd_claim_witness :
    (0 : ℚ) < testCam.fx ∧ (0 : ℚ) < testCam.fy ∧
      compute_ground_sampling_distance testCam 100 =
        100 / min testCam.fx testCam.fy ∧
      compute_ground_sampling_distance testCam (2 * 100) =
        2 * compute_ground_sampling_distance testCam 100 :=
  ⟨by norm_num [testCam], by norm_num [testCam],
    (gsd_claim testCam 100 (by norm_num [testCam]) (by norm_num [testCam])).1,
    (gsd_claim testCam 100 (by norm_num [testCam]) (by norm_num [testCam])).2.2⟩

/-- C10: every waypoint of the plan stays inside the scan rectangle
`[0, scan_dimension_x] × [0, scan_dimension_y]`; and whenever the scan is
100 m × 0 m with ideal x spacing 30, the plan is a single row of five
waypoints whose x coordinates start at 0 and end exactly at 100. -/
theorem containment_claim (camera : Camera) (spec : DatasetSpec)
    (hcam : ValidCamera camera) (hspec : ValidSpec spec) :
    (∀ w ∈ generate_photo_plan_on_grid camera spec,
      0 ≤ w.x ∧ w.x ≤ (spec.scan_dimension_x : ℚ) ∧
      0 ≤ w.y ∧ w.y ≤ (spec.scan_dimension_y : ℚ)) ∧
    (spec.scan_dimension_x = 100 → spec.scan_dimension_y = 0 →
      ideal_distance_x camera spec = 30 →
      num_rows camera spec = 1 ∧
      (generate_photo_plan_on_grid camera spec).length = 5 ∧
      Option.map Waypoint.x (generate_photo_plan_on_grid camera spec).head? =
        some 0 ∧
      Option.map Waypoint.x (generate_photo_plan_on_grid camera spec).getLast? =
        some 100) := by
  constructor
  · intro w hw
    obtain ⟨r, hr, c, hc, hweq⟩ := mem_plan_decomp camera spec w hw
    have hadx := actual_distance_x_nonneg camera spec hspec
    have hady := actual_distance_y_nonneg camera spec hspec
    have hcolb := cols_mul_actual_distance_x camera spec hcam hspec
    have hrowb := rows_mul_actual_distance_y camera spec hcam hspec
    have hcle : (c : ℚ) ≤ (num_cols camera spec : ℚ) - 1 := by
      have h1 : (c : ℤ) + 1 ≤ num_cols camera spec := by omega
      have h2 : ((c : ℤ) : ℚ) + 1 ≤ (num_cols camera spec : ℚ) := by exact_mod_cast h1
      push_cast at h2 ⊢
      linarith
    have hrle : (r : ℚ) ≤ (num_rows camera spec : ℚ) - 1 := by
      have h1 : (r : ℤ) + 1 ≤ num_rows camera spec := by omega
      have h2 : ((r : ℤ) : ℚ) + 1 ≤ (num_rows camera spec : ℚ) := by exact_mod_cast h1
      push_cast at h2 ⊢
      linarith
    have hxle : (c : ℚ) * actual_distance_x camera spec ≤
        (spec.scan_dimension_x : ℚ) := by
      rw [← hcolb]
      exact mul_le_mul_of_nonneg_right hcle hadx
    have hx0 : 0 ≤ (c : ℚ) * actual_distance_x camera spec :=
      mul_nonneg (Nat.cast_nonneg c) hadx
    have hyle : (r : ℚ) * actual_distance_y camera spec ≤
        (spec.scan_dimension_y : ℚ) := by
      rw [← hrowb]
      exact mul_le_mul_of_nonneg_right hrle hady
    have hy0 : 0 ≤ (r : ℚ) * actual_distance_y camera spec :=
      mul_nonneg (Nat.cast_nonneg r) hady
    rw [hweq]
    dsimp only
    by_cases hpar : r % 2 = 0
    · rw [if_pos hpar]
      exact ⟨hx0, hxle, hy0, hyle⟩
    · rw [if_neg hpar]
      exact ⟨by linarith, by linarith, hy0, hyle⟩
  · intro hdx hdy hideal
    have hrows : num_rows camera spec = 1 := by
      rw [num_rows, num_intervals_y, if_pos hdy]
      norm_num
    have hnix : num_intervals_x camera spec = 4 := by
      rw [num_intervals_x, if_neg (by omega), hideal, hdx]
      rw [Int.ceil_eq_iff]
      norm_num
    have hcols : num_cols camera spec = 5 := by
      rw [num_cols, hnix]
      norm_num
    have hplan := plan_single_row camera spec hrows
    refine ⟨hrows, ?_, ?_, ?_⟩
    · rw [plan_length_eq, hrows, hcols]
      decide
    · rw [hplan, row_head_x camera spec hcam hspec 0, if_pos (by norm_num)]
    · rw [hplan, row_last_x camera spec hcam hspec 0, if_pos (by norm_num), hdx]
      norm_num

/-- Witness for C10 at the concrete test camera and the 100 m × 0 m spec
with ideal spacing 30. -/
theorem containment_claim_witness :
    ValidCamera testCam ∧ ValidSpec testSpec ∧
      (∀ w ∈ generate_photo_plan_on_grid testCam testSpec,
        0 ≤ w.x ∧ w.x ≤ (testSpec.scan_dimension_x : ℚ) ∧
        0 ≤ w.y ∧ w.y ≤ (testSpec.scan_dimension_y : ℚ)) ∧
      (generate_photo_plan_on_grid testCam testSpec).length = 5 ∧
      Option.map Waypoint.x (generate_photo_plan_on_grid testCam testSpec).head? =
        some 0 ∧
      Option.map Waypoint.x (generate_photo_plan_on_grid testCam testSpec).getLast? =
        some 100 := by
  have h := containment_claim testCam testSpec eval_valid_cam eval_valid_spec
  obtain ⟨h1, h2, h3, h4⟩ := h.2 rfl rfl eval_ideal_x
  exact ⟨eval_valid_cam, eval_valid_spec, h.1, h2, h3, h4⟩

end DronePlan
